import Mathlib

/-!
Verification of the gridded-dataset workflow specification for the
geoviews repository.  The repository ships only the tutorial notebook
`doc/Gridded_Datasets_I.ipynb`; the library operations it calls
(`gv.Dataset`, `.to`, the `*` overlay operator, `.range`, `.redim`) are
repository code that is not included, so every operation below is
modelled from the specification's own contracts (sections 3, 4 and 7 of
the spec) and the claims are settled against that model.
-/

/-- Modelled from the spec: a named coordinate axis of a Raw Grid —
"named coordinate axes (e.g., time, longitude, latitude)" — holding the
list of numeric values found along that axis. -/
structure Axis where
  name : String
  values : List Int
deriving Repr, DecidableEq

/-- Modelled from the spec: a Raw Grid, "an n-dimensional numeric array
plus named coordinate axes"; the axes carry both the indexing
coordinates and the measured quantities the notebook binds as value
dimensions.  Immutable once loaded. -/
structure RawGrid where
  axes : List Axis
deriving Repr, DecidableEq

/-- The names of the axes present in a Raw Grid. -/
def RawGrid.axisNames (g : RawGrid) : List String :=
  g.axes.map Axis.name

/-- Look up an axis of a Raw Grid by name. -/
def RawGrid.findAxis (g : RawGrid) (n : String) : Option Axis :=
  g.axes.find? (fun a => a.name == n)

/-- The values recorded along a named axis ([] when the axis is absent). -/
def RawGrid.axisValues (g : RawGrid) (n : String) : List Int :=
  match g.findAxis n with
  | some a => a.values
  | none => []

/-- The distinct values of a named axis, in first-occurrence order. -/
def RawGrid.distinctVals (g : RawGrid) (n : String) : List Int :=
  (g.axisValues n).dedup

/-- Modelled from the spec: the error taxonomy of section 7 —
"FileNotFound/FormatError (loading), DimensionMismatch (binding),
UnsupportedVisualKind (mapping)". -/
inductive ErrorKind where
  | fileNotFound
  | formatError
  | dimensionMismatch
  | unsupportedVisualKind
deriving Repr, DecidableEq

/-- Modelled from the spec: a Bound Dataset, "a view over a Raw Grid
that classifies each named axis as either a key dimension (index) or
value dimension (measured quantity), and optionally attaches a
coordinate-reference-system tag"; `normRange` is the normalization range
attached to a value dimension, the one piece of render-time state the
spec allows to be rebound. -/
structure BoundDataset where
  grid : RawGrid
  kdims : List String
  vdims : List String
  crs : Option String
  normRange : Option (Int × Int)
deriving Repr, DecidableEq

/-- Modelled from the spec: the Dimension Binder (section 4.2) — "given
a Raw Grid, an ordered list of key-dimension names, an ordered list of
value-dimension names, and an optional coordinate-reference-system tag,
return a Bound Dataset.  Fails with a DimensionMismatch error kind if
any declared dimension name is absent from the Raw Grid's axes."
This is `gv.Dataset(...)` in the notebook. -/
def bindDataset (g : RawGrid) (kdims vdims : List String) (crs : Option String) :
    Except ErrorKind BoundDataset :=
  if (kdims ++ vdims).all (fun n => g.axisNames.contains n) then
    Except.ok ⟨g, kdims, vdims, crs, none⟩
  else
    Except.error ErrorKind.dimensionMismatch

/-- Modelled from the spec: the contents a file path may resolve to —
either "a recognized gridded format" holding a Raw Grid, or some other
file (the payload is an uninterpreted code). -/
inductive FileContent where
  | gridFile (g : RawGrid)
  | otherFile (code : Nat)
deriving Repr, DecidableEq

/-- A file system, mapping paths to contents. -/
abbrev FileSystem : Type := List (String × FileContent)

/-- Look a path up in the file system. -/
def FileSystem.lookup (fs : FileSystem) (path : String) : Option FileContent :=
  match fs.find? (fun p => p.1 == path) with
  | some p => some p.2
  | none => none

/-- Modelled from the spec: the Dataset Loader (section 4.1) — "given a
file path, return a Raw Grid or fail with a FileNotFound or FormatError
kind if the path is missing or the file is not a recognized gridded
format.  No retries; failure is surfaced immediately to the caller."
This is `xr.open_dataset` / `iris.load_cube` in the notebook. -/
def loadDataset (fs : FileSystem) (path : String) : Except ErrorKind RawGrid :=
  match fs.lookup path with
  | none => Except.error ErrorKind.fileNotFound
  | some (FileContent.gridFile g) => Except.ok g
  | some (FileContent.otherFile _) => Except.error ErrorKind.formatError

/-- Modelled from the spec: the target visual kinds of section 4.3 —
"image grid, filled contour, point marker, line curve". -/
inductive VisualKind where
  | image
  | filledContours
  | points
  | curve
deriving Repr, DecidableEq

/-- Modelled from the spec: whether a visual kind "can represent the
requested axis mapping": an image grid, filled contour or point marker
renders two spatial axes; a line curve renders a single linearly ordered
axis ("a line curve given two spatial axes with no linear ordering" is
the spec's unsupported example). -/
def canRepresent : VisualKind → Nat → Bool
  | VisualKind.image, n => n == 2
  | VisualKind.filledContours, n => n == 2
  | VisualKind.points, n => n == 2
  | VisualKind.curve, n => n == 1

/-- Modelled from the spec: a Visual Object, "a rendering of a Bound
Dataset projected onto one or two spatial axes for one combination of
the remaining key-dimension values".  `key` is that combination of
unmapped key-dimension values; `xvals`/`yvals` are the mapped spatial
axes; `vvals` the visualized quantity. -/
structure VisualObject where
  key : List Int
  xvals : List Int
  yvals : List Int
  vvals : List Int
deriving Repr, DecidableEq

/-- All combinations of distinct values of the given (unmapped) axes,
ordered lexicographically in axis order. -/
def keyCombos (g : RawGrid) : List String → List (List Int)
  | [] => [[]]
  | n :: ns => (g.distinctVals n).flatMap (fun v => (keyCombos g ns).map (v :: ·))

/-- The Visual Object rendered for one combination of unmapped
key-dimension values. -/
def renderFrame (d : BoundDataset) (mapped : List String) (key : List Int) :
    VisualObject :=
  { key := key
    xvals := d.grid.axisValues (mapped.headD "")
    yvals := match mapped with
      | _ :: y :: _ => d.grid.axisValues y
      | _ => []
    vvals := d.grid.axisValues (d.vdims.headD "") }

/-- Modelled from the spec: the Dimension-to-Visual Mapper (section 4.3)
— "given a Bound Dataset, a target visual kind, and the subset of key
dimensions to map onto spatial/visual axes, produce one Visual Object
per combination of values of the remaining (unmapped) key dimensions",
failing with "UnsupportedVisualKind if the chosen visual kind cannot
represent the requested axis mapping".  This is `.to(gv.Image, [...])`
in the notebook. -/
def mapToVisual (d : BoundDataset) (kind : VisualKind) (mapped : List String) :
    Except ErrorKind (List VisualObject) :=
  if canRepresent kind mapped.length then
    let unmapped := d.kdims.filter (fun k => !(mapped.contains k))
    Except.ok ((keyCombos d.grid unmapped).map (renderFrame d mapped))
  else
    Except.error ErrorKind.unsupportedVisualKind

/-- Modelled from the spec: a Composite View, "an ordered collection of
Visual Objects combined via overlay (shared axes) or layout". -/
abbrev CompositeView : Type := List VisualObject

/-- A single Visual Object seen as a one-element Composite View. -/
def VisualObject.toView (v : VisualObject) : CompositeView := [v]

/-- Modelled from the spec: the overlay operator of the Compositor
(section 4.4) — "stack on common axes, later objects drawn on top".
This is the `*` operator in the notebook. -/
def overlay (a b : CompositeView) : CompositeView := a ++ b

/-- Combine two optional (lo, hi) intervals into their joint hull. -/
def combineInterval : Option (Int × Int) → Option (Int × Int) → Option (Int × Int)
  | none, r => r
  | some r, none => some r
  | some (a, b), some (c, d) => some (min a c, max b d)

/-- The interval spanned by a list of values, `none` when empty. -/
def listInterval : List Int → Option (Int × Int)
  | [] => none
  | x :: xs => some (xs.foldl min x, xs.foldl max x)

/-- The rendered x-extent of a Visual Object. -/
def VisualObject.xextent (v : VisualObject) : Option (Int × Int) :=
  listInterval v.xvals

/-- The rendered y-extent of a Visual Object. -/
def VisualObject.yextent (v : VisualObject) : Option (Int × Int) :=
  listInterval v.yvals

/-- The range of values a Visual Object displays. -/
def VisualObject.valueRange (v : VisualObject) : Option (Int × Int) :=
  listInterval v.vvals

/-- The rendered x-extent of a Composite View: hull of its objects. -/
def CompositeView.xextent (c : CompositeView) : Option (Int × Int) :=
  c.foldl (fun acc v => combineInterval acc v.xextent) none

/-- The rendered y-extent of a Composite View: hull of its objects. -/
def CompositeView.yextent (c : CompositeView) : Option (Int × Int) :=
  c.foldl (fun acc v => combineInterval acc v.yextent) none

/-- The value range of a Composite View: hull of its objects' ranges. -/
def CompositeView.valueRange (c : CompositeView) : Option (Int × Int) :=
  c.foldl (fun acc v => combineInterval acc v.valueRange) none

/-- Modelled from the spec: the range query on a dimension of a Bound
Dataset — `xr_dataset.range('surface_temperature')` in the notebook —
returning the (minimum, maximum) pair of that dimension's values. -/
def BoundDataset.range (d : BoundDataset) (dim : String) : Option (Int × Int) :=
  listInterval (d.grid.axisValues dim)

/-- Modelled from the spec: the color-scale limits used at render time —
the normalization range when one has been bound, otherwise the data
range of the first value dimension ("every frame is normalized
independently" using "whatever values are found"). -/
def colorScaleLimits (d : BoundDataset) : Option (Int × Int) :=
  match d.normRange with
  | some r => some r
  | none => d.range (d.vdims.headD "")

/-- An entity of the workflow session: the spec's Raw Grid, Bound
Dataset, and Visual Object / Composite View (a Visual Object is the
one-element view). -/
inductive Entity where
  | raw (g : RawGrid)
  | bound (d : BoundDataset)
  | view (c : CompositeView)
deriving Repr, DecidableEq

/-- The session store: every entity created so far, in creation order. -/
abbrev Store : Type := List Entity

/-- Modelled from the spec: the operations a notebook cell can perform —
load, bind, map to a visual, overlay two views, and rebind the
normalization range of a value dimension (`.redim` in the notebook).
Indices refer to previously created entities in the store. -/
inductive Op where
  | load (fs : FileSystem) (path : String)
  | bind (i : Nat) (kdims vdims : List String) (crs : Option String)
  | toVisual (i : Nat) (kind : VisualKind) (mapped : List String)
  | compose (i j : Nat)
  | redim (i : Nat) (r : Int × Int)

/-- Modelled from the spec: one cell's effect on the session store.
Every stage "is a pure function from inputs to a new,
independently-addressable output object", appended to the store; the
single exception is `redim`, which rebinds the normalization range of an
existing Bound Dataset in place.  A failing operation "aborts the
current cell's evaluation without corrupting previously computed
objects", leaving the store unchanged. -/
def applyOp (op : Op) (s : Store) : Store :=
  match op with
  | Op.load fs path =>
    match loadDataset fs path with
    | Except.ok g => s ++ [Entity.raw g]
    | Except.error _ => s
  | Op.bind i kdims vdims crs =>
    match s[i]? with
    | some (Entity.raw g) =>
      match bindDataset g kdims vdims crs with
      | Except.ok d => s ++ [Entity.bound d]
      | Except.error _ => s
    | _ => s
  | Op.toVisual i kind mapped =>
    match s[i]? with
    | some (Entity.bound d) =>
      match mapToVisual d kind mapped with
      | Except.ok objs => s ++ [Entity.view objs]
      | Except.error _ => s
    | _ => s
  | Op.compose i j =>
    match s[i]?, s[j]? with
    | some (Entity.view a), some (Entity.view b) => s ++ [Entity.view (overlay a b)]
    | _, _ => s
  | Op.redim i r =>
    match s[i]? with
    | some (Entity.bound d) => s.set i (Entity.bound { d with normRange := some r })
    | _ => s

/-- An entity with its normalization range forgotten: the part of an
entity the spec promises is never mutated. -/
def eraseNorm : Entity → Entity
  | Entity.bound d => Entity.bound { d with normRange := none }
  | e => e

/-! Concrete instances mirroring the notebook's data: the ensemble file
has axes time (3 values), longitude (10), latitude (5) and the measured
quantity surface_temperature. -/

/-- Sample surface-temperature values (the notebook reports a maximum of
317 K). -/
def demoTemps : List Int := [301, 299, 317, 305]

/-- The sample ensemble grid: 3 time values, 10 longitudes,
5 latitudes, and the surface_temperature variable. -/
def demoGrid : RawGrid :=
  { axes := [⟨"time", [0, 1, 2]⟩,
             ⟨"longitude", [0, 1, 2, 3, 4, 5, 6, 7, 8, 9]⟩,
             ⟨"latitude", [0, 1, 2, 3, 4]⟩,
             ⟨"surface_temperature", demoTemps⟩] }

/-- The notebook's key dimensions for the ensemble dataset. -/
def demoKdims : List String := ["time", "longitude", "latitude"]

/-- The notebook's value dimensions for the ensemble dataset. -/
def demoVdims : List String := ["surface_temperature"]

/-- The bound ensemble dataset, `xr_dataset` in the notebook. -/
def demoDataset : BoundDataset :=
  ⟨demoGrid, demoKdims, demoVdims, some "PlateCarree", none⟩

/-- A dataset bound over longitude and latitude only, like the
notebook's pre-industrial `air_temperature` dataset. -/
def airDataset : BoundDataset :=
  ⟨demoGrid, ["longitude", "latitude"], demoVdims, some "PlateCarree", none⟩

/-- A sample file system: one recognized gridded file and one file that
is not a gridded format. -/
def demoFS : FileSystem :=
  [("sample-data/ensemble.nc", FileContent.gridFile demoGrid),
   ("sample-data/readme.txt", FileContent.otherFile 0)]

/-- A sample session store holding a Raw Grid and a Bound Dataset. -/
def demoStore : Store := [Entity.raw demoGrid, Entity.bound demoDataset]

/-! Helper lemmas. -/

/-- A successful bind packages exactly the given grid and dimension
lists, with no normalization range yet. -/
lemma bindDataset_ok_elim (g : RawGrid) (kdims vdims : List String)
    (crs : Option String) (d : BoundDataset)
    (h : bindDataset g kdims vdims crs = Except.ok d) :
    d = ⟨g, kdims, vdims, crs, none⟩ := by
  unfold bindDataset at h
  split at h
  · exact (Except.ok.inj h).symm
  · simp at h

/-- Flattening one-element lists is mapping. -/
lemma flatMap_singleton_map (l : List Int) :
    (l.flatMap fun v => [[v]]) = l.map fun v => [v] := by
  induction l with
  | nil => rfl
  | cons a t ih => simp [List.flatMap] at ih ⊢; exact ih

/-- With a single unmapped axis, the key combinations are exactly that
axis's distinct values, each as a one-element key. -/
lemma keyCombos_single (g : RawGrid) (t : String) :
    keyCombos g [t] = (g.distinctVals t).map fun v => [v] := by
  have h : keyCombos g [t] = (g.distinctVals t).flatMap fun v => [[v]] := rfl
  rw [h, flatMap_singleton_map]

/-- Appending to the store does not disturb existing entities. -/
lemma store_append_preserves (s : Store) (x : Entity) (i : Nat) (e : Entity)
    (h : s[i]? = some e) : (s ++ [x])[i]? = some e := by
  obtain ⟨hi, _⟩ := List.getElem?_eq_some.mp h
  rw [List.getElem?_append, if_pos hi]
  exact h

/-- Combining an interval hull with itself changes nothing. -/
lemma combineInterval_self (r : Option (Int × Int)) :
    combineInterval r r = r := by
  cases r with
  | none => rfl
  | some p => cases p with | mk a b => simp [combineInterval]

/-- Folding `min` never exceeds the seed. -/
lemma foldl_min_le_init (l : List Int) : ∀ x : Int, l.foldl min x ≤ x := by
  induction l with
  | nil => intro x; exact le_refl x
  | cons a t ih =>
    intro x
    exact le_trans (ih (min x a)) (min_le_left x a)

/-- Folding `min` never exceeds any member of the list. -/
lemma foldl_min_le_mem (l : List Int) :
    ∀ x y : Int, y ∈ l → l.foldl min x ≤ y := by
  induction l with
  | nil => intro x y hy; exact absurd hy (List.not_mem_nil y)
  | cons a t ih =>
    intro x y hy
    rcases List.mem_cons.mp hy with h | h
    · subst h
      exact le_trans (foldl_min_le_init t (min x y)) (min_le_right x y)
    · exact ih (min x a) y h

/-- Folding `min` yields the seed or a member of the list. -/
lemma foldl_min_mem (l : List Int) :
    ∀ x : Int, l.foldl min x = x ∨ l.foldl min x ∈ l := by
  induction l with
  | nil => intro x; exact Or.inl rfl
  | cons a t ih =>
    intro x
    rcases ih (min x a) with h | h
    · rcases min_choice x a with hc | hc
      · exact Or.inl (by rw [List.foldl_cons, h, hc])
      · exact Or.inr (by rw [List.foldl_cons, h, hc]; exact List.mem_cons_self a t)
    · exact Or.inr (List.mem_cons_of_mem a h)

/-- Folding `max` is at least the seed. -/
lemma foldl_max_init_le (l : List Int) : ∀ x : Int, x ≤ l.foldl max x := by
  induction l with
  | nil => intro x; exact le_refl x
  | cons a t ih =>
    intro x
    exact le_trans (le_max_left x a) (ih (max x a))

/-- Folding `max` dominates every member of the list. -/
lemma foldl_max_mem_le (l : List Int) :
    ∀ x y : Int, y ∈ l → y ≤ l.foldl max x := by
  induction l with
  | nil => intro x y hy; exact absurd hy (List.not_mem_nil y)
  | cons a t ih =>
    intro x y hy
    rcases List.mem_cons.mp hy with h | h
    · subst h
      exact le_trans (le_max_right x y) (foldl_max_init_le t (max x y))
    · exact ih (max x a) y h

/-- Folding `max` yields the seed or a member of the list. -/
lemma foldl_max_mem (l : List Int) :
    ∀ x : Int, l.foldl max x = x ∨ l.foldl max x ∈ l := by
  induction l with
  | nil => intro x; exact Or.inl rfl
  | cons a t ih =>
    intro x
    rcases ih (max x a) with h | h
    · rcases max_choice x a with hc | hc
      · exact Or.inl (by rw [List.foldl_cons, h, hc])
      · exact Or.inr (by rw [List.foldl_cons, h, hc]; exact List.mem_cons_self a t)
    · exact Or.inr (List.mem_cons_of_mem a h)

/-- The interval of a nonempty list is (minimum, maximum): both are
members, the pair is ordered, and it bounds every member. -/
lemma listInterval_spec (x : Int) (xs : List Int) :
    ∃ lo hi, listInterval (x :: xs) = some (lo, hi) ∧ lo ≤ hi ∧
      lo ∈ x :: xs ∧ hi ∈ x :: xs ∧
      ∀ y ∈ x :: xs, lo ≤ y ∧ y ≤ hi := by
  refine ⟨xs.foldl min x, xs.foldl max x, rfl, ?_, ?_, ?_, ?_⟩
  · exact le_trans (foldl_min_le_init xs x) (foldl_max_init_le xs x)
  · rcases foldl_min_mem xs x with h | h
    · rw [h]; exact List.mem_cons_self x xs
    · exact List.mem_cons_of_mem x h
  · rcases foldl_max_mem xs x with h | h
    · rw [h]; exact List.mem_cons_self x xs
    · exact List.mem_cons_of_mem x h
  · intro y hy
    rcases List.mem_cons.mp hy with h | h
    · subst h
      exact ⟨foldl_min_le_init xs y, foldl_max_init_le xs y⟩
    · exact ⟨foldl_min_le_mem xs x y h, foldl_max_mem_le xs x y h⟩

/-- Membership in a string list matches its boolean containment test. -/
lemma contains_eq_true_iff (l : List String) (n : String) :
    l.contains n = true ↔ n ∈ l := by
  simp [List.contains, List.elem_iff]

/-! Claim theorems. -/

/-- C1: mapping a Bound Dataset with exactly one key dimension left
unmapped yields an ordered, finite, restartable sequence (a list) of
Visual Objects keyed by that dimension's values, whose length is the
number of distinct values of that dimension in the underlying Raw
Grid. -/
theorem slider_seq_keyed_by_unmapped_dim
    (g : RawGrid) (kdims vdims : List String) (crs : Option String)
    (d : BoundDataset) (kind : VisualKind) (mapped : List String) (t : String)
    (hbind : bindDataset g kdims vdims crs = Except.ok d)
    (hrep : canRepresent kind mapped.length = true)
    (hun : kdims.filter (fun k => !(mapped.contains k)) = [t]) :
    ∃ objs, mapToVisual d kind mapped = Except.ok objs ∧
      objs.length = (g.distinctVals t).length ∧
      objs.map VisualObject.key = (g.distinctVals t).map (fun v => [v]) := by
  have hd := bindDataset_ok_elim g kdims vdims crs d hbind
  subst hd
  have hm : mapToVisual ⟨g, kdims, vdims, crs, none⟩ kind mapped =
      Except.ok ((keyCombos g [t]).map
        (renderFrame ⟨g, kdims, vdims, crs, none⟩ mapped)) := by
    unfold mapToVisual
    rw [if_pos hrep]
    show Except.ok ((keyCombos g (kdims.filter fun k => !(mapped.contains k))).map _) = _
    rw [hun]
  refine ⟨_, hm, ?_, ?_⟩
  · rw [keyCombos_single]
    simp
  · rw [keyCombos_single, List.map_map, List.map_map]
    rfl

/-- C2: binding fails with DimensionMismatch whenever a declared key or
value dimension is absent from the Raw Grid's axes, producing no Bound
Dataset; binding is pure, and on success the embedded grid is exactly
the input grid. -/
theorem bind_missing_dim_dimension_mismatch
    (g : RawGrid) (kdims vdims : List String) (crs : Option String) (n : String)
    (hmem : n ∈ kdims ∨ n ∈ vdims)
    (habs : n ∉ g.axisNames) :
    (bindDataset g kdims vdims crs = Except.error ErrorKind.dimensionMismatch ∧
     ∀ d, bindDataset g kdims vdims crs ≠ Except.ok d) ∧
    (∀ k v c d, bindDataset g k v c = Except.ok d → d.grid = g) := by
  have hall : ((kdims ++ vdims).all fun m => g.axisNames.contains m) = false := by
    by_contra hc
    rw [Bool.not_eq_false, List.all_eq_true] at hc
    exact habs ((contains_eq_true_iff _ _).mp
      (hc n (List.mem_append.mpr hmem)))
  have hcond : ¬ (((kdims ++ vdims).all fun m => g.axisNames.contains m) = true) := by
    rw [hall]
    simp
  refine ⟨⟨?_, ?_⟩, ?_⟩
  · unfold bindDataset
    rw [if_neg hcond]
  · intro d
    unfold bindDataset
    rw [if_neg hcond]
    simp
  · intro k v c d hok
    rw [bindDataset_ok_elim g k v c d hok]

/-- C3: loading a recognized grid and then binding it with dimension
names drawn from the file's own axes never raises DimensionMismatch. -/
theorem load_then_bind_own_axes_no_mismatch
    (fs : FileSystem) (path : String) (g : RawGrid)
    (kdims vdims : List String) (crs : Option String)
    (hload : loadDataset fs path = Except.ok g)
    (hk : ∀ n ∈ kdims, n ∈ g.axisNames)
    (hv : ∀ n ∈ vdims, n ∈ g.axisNames) :
    (∃ d, bindDataset g kdims vdims crs = Except.ok d) ∧
    bindDataset g kdims vdims crs ≠ Except.error ErrorKind.dimensionMismatch := by
  have hall : ((kdims ++ vdims).all fun m => g.axisNames.contains m) = true := by
    rw [List.all_eq_true]
    intro x hx
    rcases List.mem_append.mp hx with h | h
    · exact (contains_eq_true_iff _ _).mpr (hk x h)
    · exact (contains_eq_true_iff _ _).mpr (hv x h)
  constructor
  · refine ⟨⟨g, kdims, vdims, crs, none⟩, ?_⟩
    unfold bindDataset
    rw [if_pos hall]
  · unfold bindDataset
    rw [if_pos hall]
    simp

/-- C4: the Dataset Loader returns the Raw Grid stored at the path,
fails with FileNotFound when the path is missing, and fails with
FormatError when the file is not a recognized gridded format; the
failure is the immediate result, with no retry. -/
theorem loader_contract_trichotomy (fs : FileSystem) (path : String) :
    (fs.lookup path = none →
      loadDataset fs path = Except.error ErrorKind.fileNotFound) ∧
    (∀ g, fs.lookup path = some (FileContent.gridFile g) →
      loadDataset fs path = Except.ok g) ∧
    (∀ c, fs.lookup path = some (FileContent.otherFile c) →
      loadDataset fs path = Except.error ErrorKind.formatError) := by
  refine ⟨?_, ?_, ?_⟩
  · intro h
    simp [loadDataset, h]
  · intro g h
    simp [loadDataset, h]
  · intro c h
    simp [loadDataset, h]

/-- C5: binding the notebook's ensemble grid (time: 3 values,
longitude: 10, latitude: 5, value dimension surface_temperature) and
mapping it onto longitude and latitude yields exactly 3 Visual Objects,
one per time value. -/
theorem demo_three_time_frames :
    bindDataset demoGrid demoKdims demoVdims (some "PlateCarree") =
      Except.ok demoDataset ∧
    ∃ objs, mapToVisual demoDataset VisualKind.image ["longitude", "latitude"] =
      Except.ok objs ∧ objs.length = 3 := by
  refine ⟨by rfl, ⟨_, rfl, by rfl⟩⟩

/-- C6: overlaying a Visual Object with itself is idempotent in
content — the Composite View keeps the same rendered x- and y-extent
and the same value range as the single Visual Object. -/
theorem overlay_self_idempotent_content (v : VisualObject) :
    CompositeView.xextent (overlay v.toView v.toView) =
      CompositeView.xextent v.toView ∧
    CompositeView.yextent (overlay v.toView v.toView) =
      CompositeView.yextent v.toView ∧
    CompositeView.valueRange (overlay v.toView v.toView) =
      CompositeView.valueRange v.toView :=
  ⟨combineInterval_self _, combineInterval_self _, combineInterval_self _⟩

/-- C7: requesting a line-curve visual kind with two spatial key
dimensions mapped and zero value dimensions fails with
UnsupportedVisualKind. -/
theorem curve_two_spatial_axes_unsupported
    (d : BoundDataset) (mapped : List String)
    (hlen : mapped.length = 2) (hvd : d.vdims = []) :
    mapToVisual d VisualKind.curve mapped =
      Except.error ErrorKind.unsupportedVisualKind := by
  unfold mapToVisual
  rw [hlen]
  rfl

/-- C9: mapping a Bound Dataset all of whose key dimensions are mapped
onto visual axes produces exactly one Visual Object — a single frame
with no slider sequence. -/
theorem all_kdims_mapped_single_frame
    (g : RawGrid) (kdims vdims : List String) (crs : Option String)
    (d : BoundDataset) (kind : VisualKind) (mapped : List String)
    (hbind : bindDataset g kdims vdims crs = Except.ok d)
    (hrep : canRepresent kind mapped.length = true)
    (hall : ∀ k ∈ kdims, mapped.contains k = true) :
    ∃ objs, mapToVisual d kind mapped = Except.ok objs ∧ objs.length = 1 := by
  have hd := bindDataset_ok_elim g kdims vdims crs d hbind
  subst hd
  have hfil : (kdims.filter fun k => !(mapped.contains k)) = [] := by
    rw [List.filter_eq_nil_iff]
    intro a ha
    rw [hall a ha]
    simp
  have hm : mapToVisual ⟨g, kdims, vdims, crs, none⟩ kind mapped =
      Except.ok ((keyCombos g []).map
        (renderFrame ⟨g, kdims, vdims, crs, none⟩ mapped)) := by
    unfold mapToVisual
    rw [if_pos hrep]
    show Except.ok ((keyCombos g (kdims.filter fun k => !(mapped.contains k))).map _) = _
    rw [hfil]
  exact ⟨_, hm, rfl⟩

/-- C10: for a nonempty value dimension, the range query returns the
ordered pair (minimum, maximum) of that dimension's values — both are
values of the dimension, they bound every value, and min ≤ max. -/
theorem range_query_min_max
    (d : BoundDataset) (dim : String) (x : Int) (xs : List Int)
    (h : d.grid.axisValues dim = x :: xs) :
    ∃ lo hi, d.range dim = some (lo, hi) ∧ lo ≤ hi ∧
      lo ∈ d.grid.axisValues dim ∧ hi ∈ d.grid.axisValues dim ∧
      ∀ y ∈ d.grid.axisValues dim, lo ≤ y ∧ y ≤ hi := by
  unfold BoundDataset.range
  rw [h]
  exact listInterval_spec x xs

/-- C8: no session entity is mutated in place by any workflow
operation, with the single exception of the normalization range of a
Bound Dataset, which `redim` rebinds in place and which becomes the
color-scale limits used at render time. -/
theorem entities_immutable_except_norm_range
    (op : Op) (s : Store) (i : Nat) (e : Entity)
    (h : s[i]? = some e) :
    (∃ e', (applyOp op s)[i]? = some e' ∧ eraseNorm e' = eraseNorm e) ∧
    (∀ d r, e = Entity.bound d →
      (applyOp (Op.redim i r) s)[i]? =
        some (Entity.bound { d with normRange := some r }) ∧
      colorScaleLimits { d with normRange := some r } = some r) := by
  constructor
  · cases op with
    | load fs path =>
      simp only [applyOp]
      split
      · exact ⟨e, store_append_preserves s _ i e h, rfl⟩
      · exact ⟨e, h, rfl⟩
    | bind j kdims vdims crs =>
      simp only [applyOp]
      split
      · split
        · exact ⟨e, store_append_preserves s _ i e h, rfl⟩
        · exact ⟨e, h, rfl⟩
      · exact ⟨e, h, rfl⟩
    | toVisual j kind mapped =>
      simp only [applyOp]
      split
      · split
        · exact ⟨e, store_append_preserves s _ i e h, rfl⟩
        · exact ⟨e, h, rfl⟩
      · exact ⟨e, h, rfl⟩
    | compose j k =>
      simp only [applyOp]
      split
      · exact ⟨e, store_append_preserves s _ i e h, rfl⟩
      · exact ⟨e, h, rfl⟩
    | redim j r =>
      simp only [applyOp]
      split
      · rename_i d' heq
        by_cases hij : j = i
        · subst hij
          rw [h] at heq
          have he : e = Entity.bound d' := Option.some.inj heq
          subst he
          obtain ⟨hi, _⟩ := List.getElem?_eq_some.mp h
          exact ⟨Entity.bound { d' with normRange := some r },
            List.getElem?_set_self hi, rfl⟩
        · rw [List.getElem?_set_ne hij]
          exact ⟨e, h, rfl⟩
      · exact ⟨e, h, rfl⟩
  · intro d r hd
    subst hd
    constructor
    · simp only [applyOp]
      rw [h]
      obtain ⟨hi, _⟩ := List.getElem?_eq_some.mp h
      exact List.getElem?_set_self hi
    · rfl

/-! Witnesses: the claim theorems applied at the notebook's concrete
data. -/

/-- Witness for C1 at the ensemble dataset with time unmapped. -/
theorem slider_seq_keyed_by_unmapped_dim_witness :
    ∃ objs, mapToVisual demoDataset VisualKind.image ["longitude", "latitude"] =
      Except.ok objs ∧
      objs.length = (demoGrid.distinctVals "time").length ∧
      objs.map VisualObject.key =
        (demoGrid.distinctVals "time").map (fun v => [v]) :=
  slider_seq_keyed_by_unmapped_dim demoGrid demoKdims demoVdims
    (some "PlateCarree") demoDataset VisualKind.image
    ["longitude", "latitude"] "time" (by rfl) (by rfl) (by rfl)

/-- Witness for C2 with the absent dimension name "pressure". -/
theorem bind_missing_dim_dimension_mismatch_witness :
    (bindDataset demoGrid ["pressure"] demoVdims none =
        Except.error ErrorKind.dimensionMismatch ∧
      ∀ d, bindDataset demoGrid ["pressure"] demoVdims none ≠ Except.ok d) ∧
    (∀ k v c d, bindDataset demoGrid k v c = Except.ok d → d.grid = demoGrid) :=
  bind_missing_dim_dimension_mismatch demoGrid ["pressure"] demoVdims none
    "pressure" (Or.inl (List.mem_cons_self _ _)) (by decide)

/-- Witness for C3: loading the sample ensemble file and binding with
its own axis names. -/
theorem load_then_bind_own_axes_no_mismatch_witness :
    (∃ d, bindDataset demoGrid demoKdims demoVdims none = Except.ok d) ∧
    bindDataset demoGrid demoKdims demoVdims none ≠
      Except.error ErrorKind.dimensionMismatch :=
  load_then_bind_own_axes_no_mismatch demoFS "sample-data/ensemble.nc" demoGrid
    demoKdims demoVdims none (by rfl) (by decide) (by decide)

/-- Witness for C4: all three loader outcomes on the sample file
system. -/
theorem loader_contract_trichotomy_witness :
    loadDataset demoFS "missing.nc" = Except.error ErrorKind.fileNotFound ∧
    loadDataset demoFS "sample-data/ensemble.nc" = Except.ok demoGrid ∧
    loadDataset demoFS "sample-data/readme.txt" =
      Except.error ErrorKind.formatError :=
  ⟨(loader_contract_trichotomy demoFS "missing.nc").1 (by rfl),
   (loader_contract_trichotomy demoFS "sample-data/ensemble.nc").2.1
     demoGrid (by rfl),
   (loader_contract_trichotomy demoFS "sample-data/readme.txt").2.2
     0 (by rfl)⟩

/-- Witness for C7: a curve over longitude and latitude with no value
dimensions. -/
theorem curve_two_spatial_axes_unsupported_witness :
    mapToVisual ⟨demoGrid, demoKdims, [], none, none⟩ VisualKind.curve
      ["longitude", "latitude"] =
      Except.error ErrorKind.unsupportedVisualKind :=
  curve_two_spatial_axes_unsupported ⟨demoGrid, demoKdims, [], none, none⟩
    ["longitude", "latitude"] (by rfl) (by rfl)

/-- Witness for C9 at the pre-industrial-style dataset whose key
dimensions are all mapped. -/
theorem all_kdims_mapped_single_frame_witness :
    ∃ objs, mapToVisual airDataset VisualKind.image ["longitude", "latitude"] =
      Except.ok objs ∧ objs.length = 1 :=
  all_kdims_mapped_single_frame demoGrid ["longitude", "latitude"] demoVdims
    (some "PlateCarree") airDataset VisualKind.image ["longitude", "latitude"]
    (by rfl) (by rfl) (by decide)

/-- Witness for C10 on the surface-temperature values. -/
theorem range_query_min_max_witness :
    ∃ lo hi, demoDataset.range "surface_temperature" = some (lo, hi) ∧
      lo ≤ hi ∧
      lo ∈ demoDataset.grid.axisValues "surface_temperature" ∧
      hi ∈ demoDataset.grid.axisValues "surface_temperature" ∧
      ∀ y ∈ demoDataset.grid.axisValues "surface_temperature",
        lo ≤ y ∧ y ≤ hi :=
  range_query_min_max demoDataset "surface_temperature" 301 [299, 317, 305]
    (by rfl)

/-- Witness for C8: rebinding the normalization range of the bound
ensemble dataset in the sample store. -/
theorem entities_immutable_except_norm_range_witness :
    (∃ e', (applyOp (Op.redim 1 (300, 317)) demoStore)[1]? = some e' ∧
      eraseNorm e' = eraseNorm (Entity.bound demoDataset)) ∧
    (∀ d r, Entity.bound demoDataset = Entity.bound d →
      (applyOp (Op.redim 1 r) demoStore)[1]? =
        some (Entity.bound { d with normRange := some r }) ∧
      colorScaleLimits { d with normRange := some r } = some r) :=
  entities_immutable_except_norm_range (Op.redim 1 (300, 317)) demoStore 1
    (Entity.bound demoDataset) (by rfl)
